import Mathlib

/-!
Verification development for the `component-oauth-card` repository.

The Rust sources (`src/model.rs`, `src/broker.rs`, `src/logic.rs`,
`src/lib.rs`) are shallowly embedded below: Rust structs and enums become
Lean structures and inductives, `serde_json::Value` becomes the inductive
`JsonVal`, fallible operations (`Result<_, OAuthCardError>`) become
`Except OAuthCardError _`, and the single source of nondeterminism
(`Uuid::new_v4().to_string()`) becomes an explicit `gen : String`
parameter threaded to the functions that may call it (each control path
calls it at most once, so one string suffices).
-/

namespace OAuthCard

/-- Shallow embedding of `serde_json::Value`.  Objects are association
lists in insertion order (the only objects the program builds have
pairwise distinct keys, so the map representation is immaterial). -/
inductive JsonVal where
  | null : JsonVal
  | bool (b : Bool) : JsonVal
  | num (n : Nat) : JsonVal
  | str (s : String) : JsonVal
  | arr (xs : List JsonVal) : JsonVal
  | obj (fields : List (String × JsonVal)) : JsonVal

/-- Field lookup on a JSON object, `Value::get(key)` in serde_json. -/
def JsonVal.getField : JsonVal → String → Option JsonVal
  | .obj fs, k => fs.lookup k
  | _, _ => Option.none

/-- The `Value::as_str` accessor of serde_json. -/
def JsonVal.asStr : JsonVal → Option String
  | .str s => some s
  | _ => Option.none

/-- JSON string escaping for one character (quote and backslash; the
identifiers this program serializes contain no control characters). -/
def escapeJsonChar (c : Char) : String :=
  if c = '\\' then "\\\\" else if c = '"' then "\\\"" else String.singleton c

/-- JSON string escaping, applied characterwise. -/
def escapeJson (s : String) : String :=
  String.join (s.toList.map escapeJsonChar)

mutual

/-- Compact serialization of a JSON value, `serde_json::Value::to_string`. -/
def JsonVal.render : JsonVal → String
  | .null => "null"
  | .bool true => "true"
  | .bool false => "false"
  | .num n => toString n
  | .str s => "\"" ++ escapeJson s ++ "\""
  | .arr xs => "[" ++ JsonVal.renderArr xs ++ "]"
  | .obj fs => "\x7b" ++ JsonVal.renderObj fs ++ "\x7d"

/-- Comma-separated rendering of the elements of a JSON array. -/
def JsonVal.renderArr : List JsonVal → String
  | [] => ""
  | [x] => JsonVal.render x
  | x :: y :: xs => JsonVal.render x ++ "," ++ JsonVal.renderArr (y :: xs)

/-- Comma-separated rendering of the fields of a JSON object. -/
def JsonVal.renderObj : List (String × JsonVal) → String
  | [] => ""
  | [(k, v)] => "\"" ++ escapeJson k ++ "\":" ++ JsonVal.render v
  | (k, v) :: f :: fs =>
      "\"" ++ escapeJson k ++ "\":" ++ JsonVal.render v ++ "," ++
        JsonVal.renderObj (f :: fs)

end

/-- The `json!` encoding of an `Option<String>` (null when absent). -/
def jsonOfOptStr : Option String → JsonVal
  | Option.none => .null
  | some s => .str s

/-- The `json!` encoding of an `Option<u64>` (null when absent). -/
def jsonOfOptNat : Option Nat → JsonVal
  | Option.none => .null
  | some n => .num n

/-- Enum `OAuthCardMode` from `src/model.rs`. -/
inductive OAuthCardMode where
  | StatusCard
  | StartSignIn
  | CompleteSignIn
  | EnsureToken
  | Disconnect
  deriving DecidableEq

/-- Serde serialization of `OAuthCardMode` (`rename_all = "kebab-case"`). -/
def OAuthCardMode.toJsonStr : OAuthCardMode → String
  | .StatusCard => "status-card"
  | .StartSignIn => "start-sign-in"
  | .CompleteSignIn => "complete-sign-in"
  | .EnsureToken => "ensure-token"
  | .Disconnect => "disconnect"

/-- Serde deserialization of `OAuthCardMode` (`rename_all = "kebab-case"`). -/
def OAuthCardMode.fromJsonStr : String → Option OAuthCardMode
  | "status-card" => some .StatusCard
  | "start-sign-in" => some .StartSignIn
  | "complete-sign-in" => some .CompleteSignIn
  | "ensure-token" => some .EnsureToken
  | "disconnect" => some .Disconnect
  | _ => Option.none

/-- Enum `OAuthStatus` from `src/model.rs`. -/
inductive OAuthStatus where
  | Ok
  | NeedsSignIn
  | Error
  deriving DecidableEq

/-- Enum `MessageCardKind` from `src/model.rs` (default `Standard`). -/
inductive MessageCardKind where
  | Standard
  | Oauth
  deriving DecidableEq

/-- Enum `OauthProvider` from `src/model.rs`. -/
inductive OauthProvider where
  | Microsoft
  | Google
  | Github
  | Custom
  deriving DecidableEq

/-- Enum `OauthPrompt` from `src/model.rs`. -/
inductive OauthPrompt where
  | None
  | Consent
  | Login
  deriving DecidableEq

/-- Struct `ImageRef` from `src/model.rs`. -/
structure ImageRef where
  url : String
  alt : Option String
  deriving DecidableEq

/-- Enum `Action` from `src/model.rs`: a card button. -/
inductive Action where
  | OpenUrl (title : String) (url : String)
  | PostBack (title : String) (data : JsonVal)

/-- Struct `OauthCard` from `src/model.rs`: oauth metadata on a card. -/
structure OauthCard where
  provider : OauthProvider
  scopes : List String
  resource : Option String
  prompt : Option OauthPrompt
  start_url : Option String
  connection_name : Option String
  metadata : Option JsonVal

/-- Struct `MessageCard` from `src/model.rs`. -/
structure MessageCard where
  kind : MessageCardKind
  title : Option String
  text : Option String
  footer : Option String
  images : List ImageRef
  actions : List Action
  allow_markdown : Bool
  adaptive : Option JsonVal
  oauth : Option OauthCard

/-- The `Default` impl for `MessageCard` in `src/model.rs`
(`allow_markdown` defaults to true, everything else empty). -/
def MessageCard.defaultCard : MessageCard :=
  { kind := .Standard
    title := Option.none
    text := Option.none
    footer := Option.none
    images := []
    actions := []
    allow_markdown := true
    adaptive := Option.none
    oauth := Option.none }

/-- Struct `OAuthCardInput` from `src/model.rs`: the decoded request. -/
structure OAuthCardInput where
  mode : OAuthCardMode
  provider_id : String
  subject : String
  tenant : Option String
  team : Option String
  scopes : List String
  state_id : Option String
  auth_code : Option String
  allow_auto_sign_in : Bool
  redirect_path : Option String
  extra_json : Option JsonVal

/-- Struct `AuthContext` from `src/model.rs`. -/
structure AuthContext where
  provider_id : String
  subject : String
  email : Option String
  tenant : Option String
  team : Option String
  scopes : List String
  expires_at : Option Nat
  deriving DecidableEq

/-- Struct `AuthHeader` from `src/model.rs`. -/
structure AuthHeader where
  headers : List (String × String)
  deriving DecidableEq

/-- Struct `TokenSet` from `src/model.rs` (`expires_at : Option<u64>`
modelled as `Option Nat`). -/
structure TokenSet where
  access_token : String
  refresh_token : Option String
  expires_at : Option Nat
  token_type : Option String
  extra : Option JsonVal

/-- Struct `OAuthCardOutput` from `src/model.rs`: the response. -/
structure OAuthCardOutput where
  status : OAuthStatus
  card : Option MessageCard
  auth_context : Option AuthContext
  auth_header : Option AuthHeader
  state_id : Option String
  error : Option String

/-- Enum `OAuthCardError` from `src/lib.rs`. -/
inductive OAuthCardError where
  | Invalid (msg : String)
  | Parse (msg : String)
  | Unsupported (msg : String)
  deriving DecidableEq

/-- The `Display` impl generated by thiserror for `OAuthCardError`
(`"invalid input: {0}"`, `"parse error: {0}"`, `"unsupported: {0}"`). -/
def OAuthCardError.message : OAuthCardError → String
  | .Invalid m => "invalid input: " ++ m
  | .Parse m => "parse error: " ++ m
  | .Unsupported m => "unsupported: " ++ m

/-- The trait `OAuthBackend` from `src/broker.rs`: the external token
broker, embedded as a record of (pure) fallible operations. -/
structure OAuthBackend where
  get_token : String → String → List String →
    Except OAuthCardError (Option TokenSet)
  get_consent_url : String → String → List String → String →
    Option String → Except OAuthCardError String
  exchange_code : String → String → String → String →
    Except OAuthCardError TokenSet

/-- The `MockBroker` impl of `OAuthBackend` from `src/broker.rs`:
returns a fixed token option and consent URL. -/
def mockBroker (token : Option TokenSet) (consent_url : String) :
    OAuthBackend where
  get_token := fun _ _ _ => .ok token
  get_consent_url := fun _ _ _ _ _ => .ok consent_url
  exchange_code := fun _ _ _ _ =>
    match token with
    | some t => .ok t
    | Option.none => .error (.Unsupported "no token in mock")

/-- The `NoopBroker` impl of `OAuthBackend` from `src/broker.rs`
(the native default backend). -/
def noopBroker : OAuthBackend where
  get_token := fun _ _ _ => .ok Option.none
  get_consent_url := fun _ _ _ _ _ => .ok ""
  exchange_code := fun _ _ _ _ =>
    .error (.Unsupported "exchange_code unavailable on native test backend")

/-- Rust `char::to_ascii_lowercase`. -/
def asciiLowerChar (c : Char) : Char :=
  if 'A' ≤ c ∧ c ≤ 'Z' then Char.ofNat (c.toNat + 32) else c

/-- Rust `str::to_ascii_lowercase`. -/
def toAsciiLowercase (s : String) : String :=
  s.map asciiLowerChar

/-- Function `provider_from_id` from `src/logic.rs`. -/
def provider_from_id (id : String) : OauthProvider :=
  let l := toAsciiLowercase id
  if l = "microsoft" ∨ l = "msgraph" ∨ l = "m365" then .Microsoft
  else if l = "google" then .Google
  else if l = "github" then .Github
  else .Custom

/-- Function `base_card` from `src/logic.rs`: a default card with the
given kind, title and text, and `allow_markdown` set to true. -/
def base_card (kind : MessageCardKind) (title : Option String)
    (text : Option String) : MessageCard :=
  { MessageCard.defaultCard with
      kind := kind, title := title, text := text, allow_markdown := true }

/-- Function `redirect_path` from `src/logic.rs`: the request value or
the default `/oauth/callback/<provider_id>`. -/
def redirect_path (input : OAuthCardInput) : String :=
  input.redirect_path.getD ("/oauth/callback/" ++ input.provider_id)

/-- Function `auth_context` from `src/logic.rs`. -/
def auth_context (input : OAuthCardInput) (token : TokenSet) : AuthContext :=
  { provider_id := input.provider_id
    subject := input.subject
    email := (token.extra.bind (fun extra => extra.getField "email")).bind
      JsonVal.asStr
    tenant := input.tenant
    team := input.team
    scopes := input.scopes
    expires_at := token.expires_at }

/-- Function `auth_header` from `src/logic.rs`. -/
def auth_header (token : TokenSet) : AuthHeader :=
  { headers :=
      [("Authorization",
        token.token_type.getD "Bearer" ++ " " ++ token.access_token)] }

/-- Function `action` from `src/logic.rs`: a PostBack button whose data
resubmits a follow-up request (the `json!` object literal, with the mode
serialized in kebab case and the option fields as null-or-value). -/
def action (title : String) (mode : OAuthCardMode) (input : OAuthCardInput)
    (state_id : Option String) : Action :=
  .PostBack title (.obj
    [("mode", .str mode.toJsonStr),
     ("provider_id", .str input.provider_id),
     ("subject", .str input.subject),
     ("state_id", jsonOfOptStr state_id),
     ("scopes", .arr (input.scopes.map .str))])

/-- Function `sign_in_card` from `src/logic.rs`. -/
def sign_in_card (input : OAuthCardInput) (state_id : String)
    (url : String) : MessageCard :=
  let card := base_card .Oauth
    (some ("Connect " ++ input.provider_id ++ " account"))
    (some ("Click Connect to sign in as " ++ input.subject ++
      (match input.team with
       | some team => " (team " ++ team ++ ")"
       | Option.none => "") ++ "."))
  let card := if url = "" then card else
    { card with actions := card.actions ++ [.OpenUrl "Connect" url] }
  let card := { card with actions := card.actions ++
    [action "Continue" .CompleteSignIn input (some state_id)] }
  let oauthMeta : OauthCard :=
    { provider := provider_from_id input.provider_id
      scopes := input.scopes
      resource := Option.none
      prompt := some .Consent
      start_url := if url = "" then Option.none else some url
      connection_name := Option.none
      metadata := some (.obj
        [("state_id", .str state_id),
         ("provider_id", .str input.provider_id),
         ("subject", .str input.subject)]) }
  { card with oauth := some oauthMeta }

/-- Function `connect_prompt_card` from `src/logic.rs` (`gen` stands for
the `Uuid::new_v4()` result used when no existing state is supplied). -/
def connect_prompt_card (gen : String) (input : OAuthCardInput)
    (existing_state : Option String) : MessageCard :=
  let state_id := existing_state.getD gen
  sign_in_card input state_id ""

/-- Function `connected_card` from `src/logic.rs`. -/
def connected_card (input : OAuthCardInput) (token : TokenSet)
    (headline : String) : MessageCard :=
  let card := base_card .Oauth
    (some (headline ++ ": " ++ input.provider_id))
    (some ("Signed in as " ++ input.subject ++
      (match input.team with
       | some team => " (team " ++ team ++ ")"
       | Option.none => "") ++ "."))
  let card := { card with actions := card.actions ++
    [action "Refresh token" .EnsureToken input Option.none,
     action "Use different account" .StartSignIn input Option.none,
     action "Disconnect" .Disconnect input Option.none] }
  let oauthMeta : OauthCard :=
    { provider := provider_from_id input.provider_id
      scopes := input.scopes
      resource := Option.none
      prompt := Option.none
      start_url := Option.none
      connection_name := Option.none
      metadata := some (.obj
        [("expires_at", jsonOfOptNat token.expires_at),
         ("provider_id", .str input.provider_id),
         ("subject", .str input.subject)]) }
  { card with oauth := some oauthMeta }

/-- Function `disconnect_card` from `src/logic.rs`. -/
def disconnect_card (input : OAuthCardInput) :
    Except OAuthCardError OAuthCardOutput :=
  let card := base_card .Oauth
    (some ("Disconnected from " ++ input.provider_id))
    (some "You can reconnect this account at any time.")
  let card := { card with actions := card.actions ++
    [action "Reconnect" .StartSignIn input Option.none] }
  let oauthMeta : OauthCard :=
    { provider := provider_from_id input.provider_id
      scopes := input.scopes
      resource := Option.none
      prompt := Option.none
      start_url := Option.none
      connection_name := Option.none
      metadata := some (.obj
        [("provider_id", .str input.provider_id),
         ("subject", .str input.subject)]) }
  let card := { card with oauth := some oauthMeta }
  .ok { status := .Ok
        card := some card
        auth_context := Option.none
        auth_header := Option.none
        state_id := Option.none
        error := Option.none }

/-- Rust `Result::unwrap_or_default` specialized to `String`. -/
def unwrapOrDefaultStr (r : Except OAuthCardError String) : String :=
  match r with
  | .ok s => s
  | .error _ => ""

/-- Function `status_card` from `src/logic.rs`. -/
def status_card (backend : OAuthBackend) (gen : String)
    (input : OAuthCardInput) : Except OAuthCardError OAuthCardOutput :=
  match backend.get_token input.provider_id input.subject input.scopes with
  | .error e => .error e
  | .ok (some token) =>
      let card := connected_card input token "Connected"
      pure { status := .Ok
             card := some card
             auth_context := some (auth_context input token)
             auth_header := some (auth_header token)
             state_id := Option.none
             error := Option.none }
  | .ok Option.none =>
      let card := connect_prompt_card gen input Option.none
      pure { status := .NeedsSignIn
             card := some card
             auth_context := Option.none
             auth_header := Option.none
             state_id := Option.none
             error := Option.none }

/-- Function `start_sign_in` from `src/logic.rs` (`gen` models the
`Uuid::new_v4()` call used when the request carries no `state_id`). -/
def start_sign_in (backend : OAuthBackend) (gen : String)
    (input : OAuthCardInput) : Except OAuthCardError OAuthCardOutput :=
  let state_id := input.state_id.getD gen
  let rp := redirect_path input
  let consent_url := unwrapOrDefaultStr
    (backend.get_consent_url input.provider_id input.subject input.scopes rp
      (input.extra_json.map JsonVal.render))
  let card := sign_in_card input state_id consent_url
  .ok { status := .Ok
        card := some card
        auth_context := Option.none
        auth_header := Option.none
        state_id := some state_id
        error := Option.none }

/-- Function `complete_sign_in` from `src/logic.rs`. -/
def complete_sign_in (backend : OAuthBackend) (input : OAuthCardInput) :
    Except OAuthCardError OAuthCardOutput :=
  match input.auth_code with
  | Option.none =>
      .error (.Invalid "auth_code is required to complete sign-in")
  | some code =>
      let rp := redirect_path input
      match backend.exchange_code input.provider_id input.subject
        code rp with
      | .error e => .error e
      | .ok token =>
      let card := connected_card input token "Connected"
      pure { status := .Ok
             card := some card
             auth_context := some (auth_context input token)
             auth_header := some (auth_header token)
             state_id := Option.none
             error := Option.none }

/-- Function `ensure_token` from `src/logic.rs`. -/
def ensure_token (backend : OAuthBackend) (gen : String)
    (input : OAuthCardInput) : Except OAuthCardError OAuthCardOutput :=
  match backend.get_token input.provider_id input.subject input.scopes with
  | .error e => .error e
  | .ok (some token) =>
      pure { status := .Ok
             card := Option.none
             auth_context := some (auth_context input token)
             auth_header := some (auth_header token)
             state_id := Option.none
             error := Option.none }
  | .ok Option.none =>
      if input.allow_auto_sign_in then
        let state_id := input.state_id.getD gen
        let rp := redirect_path input
        let consent_url := unwrapOrDefaultStr
          (backend.get_consent_url input.provider_id input.subject
            input.scopes rp (input.extra_json.map JsonVal.render))
        let card := sign_in_card input state_id consent_url
        pure { status := .NeedsSignIn
               card := some card
               auth_context := Option.none
               auth_header := Option.none
               state_id := some state_id
               error := Option.none }
      else
        pure { status := .NeedsSignIn
               card := Option.none
               auth_context := Option.none
               auth_header := Option.none
               state_id := Option.none
               error := Option.none }

/-- Function `handle` from `src/logic.rs`: the mode dispatch. -/
def handle (backend : OAuthBackend) (gen : String)
    (input : OAuthCardInput) : Except OAuthCardError OAuthCardOutput :=
  match input.mode with
  | .StatusCard => status_card backend gen input
  | .StartSignIn => start_sign_in backend gen input
  | .CompleteSignIn => complete_sign_in backend input
  | .EnsureToken => ensure_token backend gen input
  | .Disconnect => disconnect_card input

/-- One invocation of a broker operation, with the arguments it
received. -/
inductive BrokerCall where
  | getToken (provider_id : String) (subject : String)
      (scopes : List String)
  | getConsentUrl (provider_id : String) (subject : String)
      (scopes : List String) (redirect : String) (extra : Option String)
  | exchangeCode (provider_id : String) (subject : String)
      (code : String) (redirect : String)
  deriving DecidableEq

/-- The sequence of broker operations `handle backend gen input` invokes,
with their arguments, following the control flow of `src/logic.rs`:
`status_card` and `ensure_token` call `get_token` first; `start_sign_in`
(and the auto-sign-in branch of `ensure_token`, reached only when
`get_token` returned no token) calls `get_consent_url` with the resolved
redirect path and the serialized `extra_json`; `complete_sign_in` calls
`exchange_code` only once `auth_code` is present; `disconnect_card`
makes no broker call. -/
def brokerCalls (backend : OAuthBackend) (input : OAuthCardInput) :
    List BrokerCall :=
  match input.mode with
  | .StatusCard =>
      [.getToken input.provider_id input.subject input.scopes]
  | .StartSignIn =>
      [.getConsentUrl input.provider_id input.subject input.scopes
        (redirect_path input) (input.extra_json.map JsonVal.render)]
  | .CompleteSignIn =>
      match input.auth_code with
      | Option.none => []
      | some code =>
          [.exchangeCode input.provider_id input.subject code
            (redirect_path input)]
  | .EnsureToken =>
      match backend.get_token input.provider_id input.subject
          input.scopes with
      | .ok Option.none =>
          if input.allow_auto_sign_in then
            [.getToken input.provider_id input.subject input.scopes,
             .getConsentUrl input.provider_id input.subject input.scopes
               (redirect_path input) (input.extra_json.map JsonVal.render)]
          else
            [.getToken input.provider_id input.subject input.scopes]
      | _ => [.getToken input.provider_id input.subject input.scopes]
  | .Disconnect => []

/-- Serde decoding of a required string field. -/
def reqStrField (v : JsonVal) (k : String) : Except String String :=
  match v.getField k with
  | some (.str s) => .ok s
  | some _ => .error ("invalid type: field " ++ k)
  | Option.none => .error ("missing field " ++ k)

/-- Serde decoding of an `Option<String>` field: missing and null both
decode to `none`. -/
def optStrField (v : JsonVal) (k : String) : Except String (Option String) :=
  match v.getField k with
  | Option.none => .ok Option.none
  | some .null => .ok Option.none
  | some (.str s) => .ok (some s)
  | some _ => .error ("invalid type: field " ++ k)

/-- Serde decoding of a JSON value that must be a string. -/
def asStrE (v : JsonVal) : Except String String :=
  match v with
  | .str s => .ok s
  | _ => .error "invalid type: expected a string"

/-- Serde decoding of a `#[serde(default)] Vec<String>` field: missing
decodes to the empty list. -/
def strListField (v : JsonVal) (k : String) : Except String (List String) :=
  match v.getField k with
  | Option.none => .ok []
  | some (.arr xs) => xs.mapM asStrE
  | some _ => .error ("invalid type: field " ++ k)

/-- Serde decoding of a `#[serde(default)] bool` field: missing decodes
to false. -/
def boolFieldD (v : JsonVal) (k : String) : Except String Bool :=
  match v.getField k with
  | Option.none => .ok false
  | some (.bool b) => .ok b
  | some _ => .error ("invalid type: field " ++ k)

/-- Serde decoding of an `Option<serde_json::Value>` field: missing and
null decode to `none`, anything else is kept verbatim. -/
def optValField (v : JsonVal) (k : String) :
    Except String (Option JsonVal) :=
  match v.getField k with
  | Option.none => .ok Option.none
  | some .null => .ok Option.none
  | some w => .ok (some w)

/-- Serde decoding of the `mode` field (kebab-case enum tag). -/
def modeField (v : JsonVal) (k : String) : Except String OAuthCardMode :=
  match v.getField k with
  | some (.str s) =>
      match OAuthCardMode.fromJsonStr s with
      | some m => .ok m
      | Option.none => .error ("unknown variant for field " ++ k)
  | some _ => .error ("invalid type: field " ++ k)
  | Option.none => .error ("missing field " ++ k)

/-- The derived serde `Deserialize` impl for `OAuthCardInput`, per the
struct and its attributes in `src/model.rs`: `mode`, `provider_id` and
`subject` are required; `tenant`, `team`, `state_id`, `auth_code` and
`redirect_path` are optional strings; `scopes` defaults to the empty
list and `allow_auto_sign_in` to false; `extra_json` is an arbitrary
optional value; unknown fields are ignored.  Text-level JSON parsing is
modelled at the level of already-parsed `JsonVal` values. -/
def deserialize_input (v : JsonVal) : Except String OAuthCardInput :=
  match v with
  | .obj _ => do
      let mode ← modeField v "mode"
      let provider_id ← reqStrField v "provider_id"
      let subject ← reqStrField v "subject"
      let tenant ← optStrField v "tenant"
      let team ← optStrField v "team"
      let scopes ← strListField v "scopes"
      let state_id ← optStrField v "state_id"
      let auth_code ← optStrField v "auth_code"
      let allow_auto_sign_in ← boolFieldD v "allow_auto_sign_in"
      let redirect_path ← optStrField v "redirect_path"
      let extra_json ← optValField v "extra_json"
      pure { mode := mode
             provider_id := provider_id
             subject := subject
             tenant := tenant
             team := team
             scopes := scopes
             state_id := state_id
             auth_code := auth_code
             allow_auto_sign_in := allow_auto_sign_in
             redirect_path := redirect_path
             extra_json := extra_json }
  | _ => .error "invalid type: expected a struct"

/-- Function `parse_input` from `src/broker.rs`: any deserialization
failure is wrapped as a `Parse` error. -/
def parse_input (v : JsonVal) : Except OAuthCardError OAuthCardInput :=
  match deserialize_input v with
  | .ok input => .ok input
  | .error e => .error (.Parse ("input json: " ++ e))

/-- The `unwrap_or_else` arm of `handle_message` in `src/lib.rs`: a
failed pipeline becomes a `status = Error` response whose only populated
optional field is the error message. -/
def boundary_response (result : Except OAuthCardError OAuthCardOutput) :
    OAuthCardOutput :=
  match result with
  | .ok output => output
  | .error err =>
      { status := .Error
        card := Option.none
        auth_context := Option.none
        auth_header := Option.none
        state_id := Option.none
        error := some err.message }

/-- Function `handle_message` from `src/lib.rs`, up to the response
value: parse the input, run the flow engine, and turn any failure into
an error response.  (The final `serde_json::to_string` serialization of
the response, and the choice of default backend, are outside the model:
the backend is a parameter.) -/
def handle_message (backend : OAuthBackend) (gen : String) (v : JsonVal) :
    OAuthCardOutput :=
  boundary_response ((parse_input v).bind (fun parsed =>
    handle backend gen parsed))

/-! ### Characterization lemmas for the mode handlers -/

/-- With a cached token, `status_card` returns the connected response. -/
theorem status_card_token (b : OAuthBackend) (gen : String)
    (i : OAuthCardInput) (t : TokenSet)
    (h : b.get_token i.provider_id i.subject i.scopes = .ok (some t)) :
    status_card b gen i = .ok
      { status := .Ok
        card := some (connected_card i t "Connected")
        auth_context := some (auth_context i t)
        auth_header := some (auth_header t)
        state_id := Option.none
        error := Option.none } := by
  simp [status_card, h, pure, Except.pure]

/-- With no cached token, `status_card` returns the sign-in prompt. -/
theorem status_card_no_token (b : OAuthBackend) (gen : String)
    (i : OAuthCardInput)
    (h : b.get_token i.provider_id i.subject i.scopes = .ok Option.none) :
    status_card b gen i = .ok
      { status := .NeedsSignIn
        card := some (sign_in_card i gen "")
        auth_context := Option.none
        auth_header := Option.none
        state_id := Option.none
        error := Option.none } := by
  simp [status_card, h, connect_prompt_card, pure, Except.pure]

/-- A `get_token` failure propagates out of `status_card`. -/
theorem status_card_err (b : OAuthBackend) (gen : String)
    (i : OAuthCardInput) (e : OAuthCardError)
    (h : b.get_token i.provider_id i.subject i.scopes = .error e) :
    status_card b gen i = .error e := by
  simp [status_card, h]

/-- Unconditional shape of `start_sign_in`: status Ok, the sign-in card
for the resolved state id and (possibly empty) consent URL, and the
resolved state id at top level. -/
theorem start_sign_in_eq (b : OAuthBackend) (gen : String)
    (i : OAuthCardInput) :
    start_sign_in b gen i = .ok
      { status := .Ok
        card := some (sign_in_card i (i.state_id.getD gen)
          (unwrapOrDefaultStr (b.get_consent_url i.provider_id i.subject
            i.scopes (redirect_path i) (i.extra_json.map JsonVal.render))))
        auth_context := Option.none
        auth_header := Option.none
        state_id := some (i.state_id.getD gen)
        error := Option.none } := by
  simp [start_sign_in]

/-- Without an auth code, `complete_sign_in` fails with `Invalid`. -/
theorem complete_sign_in_no_code (b : OAuthBackend) (i : OAuthCardInput)
    (h : i.auth_code = Option.none) :
    complete_sign_in b i =
      .error (.Invalid "auth_code is required to complete sign-in") := by
  simp [complete_sign_in, h]

/-- With an auth code and a successful exchange, `complete_sign_in`
returns the connected response. -/
theorem complete_sign_in_token (b : OAuthBackend) (i : OAuthCardInput)
    (code : String) (t : TokenSet) (hc : i.auth_code = some code)
    (h : b.exchange_code i.provider_id i.subject code (redirect_path i) =
      .ok t) :
    complete_sign_in b i = .ok
      { status := .Ok
        card := some (connected_card i t "Connected")
        auth_context := some (auth_context i t)
        auth_header := some (auth_header t)
        state_id := Option.none
        error := Option.none } := by
  simp [complete_sign_in, hc, h, pure, Except.pure]

/-- An `exchange_code` failure propagates out of `complete_sign_in`. -/
theorem complete_sign_in_err (b : OAuthBackend) (i : OAuthCardInput)
    (code : String) (e : OAuthCardError) (hc : i.auth_code = some code)
    (h : b.exchange_code i.provider_id i.subject code (redirect_path i) =
      .error e) :
    complete_sign_in b i = .error e := by
  simp [complete_sign_in, hc, h]

/-- With a cached token, `ensure_token` returns the auth artifacts and
no card. -/
theorem ensure_token_token (b : OAuthBackend) (gen : String)
    (i : OAuthCardInput) (t : TokenSet)
    (h : b.get_token i.provider_id i.subject i.scopes = .ok (some t)) :
    ensure_token b gen i = .ok
      { status := .Ok
        card := Option.none
        auth_context := some (auth_context i t)
        auth_header := some (auth_header t)
        state_id := Option.none
        error := Option.none } := by
  simp [ensure_token, h, pure, Except.pure]

/-- With no token and auto sign-in allowed, `ensure_token` behaves like
`start_sign_in` but returns `NeedsSignIn`. -/
theorem ensure_token_auto (b : OAuthBackend) (gen : String)
    (i : OAuthCardInput)
    (h : b.get_token i.provider_id i.subject i.scopes = .ok Option.none)
    (ha : i.allow_auto_sign_in = true) :
    ensure_token b gen i = .ok
      { status := .NeedsSignIn
        card := some (sign_in_card i (i.state_id.getD gen)
          (unwrapOrDefaultStr (b.get_consent_url i.provider_id i.subject
            i.scopes (redirect_path i) (i.extra_json.map JsonVal.render))))
        auth_context := Option.none
        auth_header := Option.none
        state_id := some (i.state_id.getD gen)
        error := Option.none } := by
  simp [ensure_token, h, ha, pure, Except.pure]

/-- With no token and auto sign-in not allowed, `ensure_token` returns a
bare `NeedsSignIn`. -/
theorem ensure_token_no_auto (b : OAuthBackend) (gen : String)
    (i : OAuthCardInput)
    (h : b.get_token i.provider_id i.subject i.scopes = .ok Option.none)
    (ha : i.allow_auto_sign_in = false) :
    ensure_token b gen i = .ok
      { status := .NeedsSignIn
        card := Option.none
        auth_context := Option.none
        auth_header := Option.none
        state_id := Option.none
        error := Option.none } := by
  simp [ensure_token, h, ha, pure, Except.pure]

/-- A `get_token` failure propagates out of `ensure_token`. -/
theorem ensure_token_err (b : OAuthBackend) (gen : String)
    (i : OAuthCardInput) (e : OAuthCardError)
    (h : b.get_token i.provider_id i.subject i.scopes = .error e) :
    ensure_token b gen i = .error e := by
  simp [ensure_token, h]

/-- The action list of a sign-in card: an OpenUrl button when the
consent URL is nonempty, then the Continue PostBack. -/
theorem sign_in_card_actions (i : OAuthCardInput) (sid url : String) :
    (sign_in_card i sid url).actions =
      (if url = "" then [] else [Action.OpenUrl "Connect" url]) ++
        [action "Continue" .CompleteSignIn i (some sid)] := by
  by_cases h : url = "" <;>
    simp [sign_in_card, base_card, MessageCard.defaultCard, h]

/-- The oauth metadata of a sign-in card. -/
theorem sign_in_card_oauth (i : OAuthCardInput) (sid url : String) :
    (sign_in_card i sid url).oauth = some
      { provider := provider_from_id i.provider_id
        scopes := i.scopes
        resource := Option.none
        prompt := some .Consent
        start_url := if url = "" then Option.none else some url
        connection_name := Option.none
        metadata := some (.obj
          [("state_id", .str sid),
           ("provider_id", .str i.provider_id),
           ("subject", .str i.subject)]) } := by
  by_cases h : url = "" <;>
    simp [sign_in_card, base_card, MessageCard.defaultCard, h]

/-- Every successful `handle` result has no error message and a status
of Ok or NeedsSignIn (never Error). -/
theorem handle_ok_shape (b : OAuthBackend) (gen : String)
    (i : OAuthCardInput) (o : OAuthCardOutput)
    (h : handle b gen i = .ok o) :
    o.error = Option.none ∧ (o.status = .Ok ∨ o.status = .NeedsSignIn) := by
  cases hm : i.mode <;> simp only [handle, hm] at h
  case StatusCard =>
    cases ht : b.get_token i.provider_id i.subject i.scopes with
    | error e => rw [status_card_err b gen i e ht] at h; cases h
    | ok tok =>
      cases tok with
      | some t =>
          rw [status_card_token b gen i t ht] at h
          injection h with h2; subst h2; simp
      | none =>
          rw [status_card_no_token b gen i ht] at h
          injection h with h2; subst h2; simp
  case StartSignIn =>
    rw [start_sign_in_eq] at h
    injection h with h2; subst h2; simp
  case CompleteSignIn =>
    cases hc : i.auth_code with
    | none => rw [complete_sign_in_no_code b i hc] at h; cases h
    | some code =>
      cases hx : b.exchange_code i.provider_id i.subject code
          (redirect_path i) with
      | error e => rw [complete_sign_in_err b i code e hc hx] at h; cases h
      | ok t =>
          rw [complete_sign_in_token b i code t hc hx] at h
          injection h with h2; subst h2; simp
  case EnsureToken =>
    cases ht : b.get_token i.provider_id i.subject i.scopes with
    | error e => rw [ensure_token_err b gen i e ht] at h; cases h
    | ok tok =>
      cases tok with
      | some t =>
          rw [ensure_token_token b gen i t ht] at h
          injection h with h2; subst h2; simp
      | none =>
        cases ha : i.allow_auto_sign_in with
        | true =>
            rw [ensure_token_auto b gen i ht ha] at h
            injection h with h2; subst h2; simp
        | false =>
            rw [ensure_token_no_auto b gen i ht ha] at h
            injection h with h2; subst h2; simp
  case Disconnect =>
    simp only [disconnect_card] at h
    injection h with h2; subst h2; simp

/-- C1: for every backend, uuid seed and raw input value, the boundary
response carries exactly one status among Ok, NeedsSignIn and Error; the
error field is populated exactly when the status is Error, and in that
case the card, auth_context, auth_header and state_id fields are all
absent. -/
theorem C1_boundary_response_invariant (b : OAuthBackend) (gen : String)
    (v : JsonVal) :
    ((handle_message b gen v).status = .Ok ∨
     (handle_message b gen v).status = .NeedsSignIn ∨
     (handle_message b gen v).status = .Error) ∧
    ((handle_message b gen v).error.isSome ↔
      (handle_message b gen v).status = .Error) ∧
    ((handle_message b gen v).status = .Error →
      (handle_message b gen v).card = Option.none ∧
      (handle_message b gen v).auth_context = Option.none ∧
      (handle_message b gen v).auth_header = Option.none ∧
      (handle_message b gen v).state_id = Option.none) := by
  unfold handle_message
  cases hp : parse_input v with
  | error e => simp [hp, Except.bind, boundary_response]
  | ok i =>
    cases hh : handle b gen i with
    | error e => simp [hp, hh, Except.bind, boundary_response]
    | ok o =>
      have hs := handle_ok_shape b gen i o hh
      rcases hs with ⟨he, hst | hst⟩ <;>
        simp [hp, hh, Except.bind, boundary_response, he, hst]

/-- C5: a CompleteSignIn request without an auth code fails with the
`Invalid` error and no broker operation is invoked. -/
theorem C5_complete_sign_in_requires_auth_code (b : OAuthBackend)
    (gen : String) (i : OAuthCardInput) (hm : i.mode = .CompleteSignIn)
    (hc : i.auth_code = Option.none) :
    handle b gen i =
      .error (.Invalid "auth_code is required to complete sign-in") ∧
    brokerCalls b i = [] := by
  constructor
  · simp only [handle, hm]
    exact complete_sign_in_no_code b i hc
  · simp [brokerCalls, hm, hc]

/-- Concrete CompleteSignIn request with no auth code. -/
def inputC5 : OAuthCardInput :=
  { mode := .CompleteSignIn
    provider_id := "github"
    subject := "alice"
    tenant := Option.none
    team := Option.none
    scopes := []
    state_id := Option.none
    auth_code := Option.none
    allow_auto_sign_in := false
    redirect_path := Option.none
    extra_json := Option.none }

/-- Witness for C5 at a concrete request and the no-op backend. -/
theorem C5_witness :
    inputC5.mode = .CompleteSignIn ∧ inputC5.auth_code = Option.none ∧
    (handle noopBroker "uuid-1" inputC5 =
        .error (.Invalid "auth_code is required to complete sign-in") ∧
      brokerCalls noopBroker inputC5 = []) :=
  ⟨rfl, rfl,
    C5_complete_sign_in_requires_auth_code noopBroker "uuid-1" inputC5
      rfl rfl⟩

/-- C8: the constructed auth header is exactly one pair, named
Authorization, whose value prefixes the access token with the token type
or with Bearer when the token carries none. -/
theorem C8_auth_header_shape (t : TokenSet) :
    (auth_header t).headers =
      [("Authorization",
        t.token_type.getD "Bearer" ++ " " ++ t.access_token)] ∧
    (t.token_type = Option.none →
      (auth_header t).headers =
        [("Authorization", "Bearer " ++ t.access_token)]) := by
  refine ⟨rfl, fun h => ?_⟩
  simp [auth_header, h]

/-- Concrete token without a token type. -/
def tokenPlain : TokenSet :=
  { access_token := "tok-xyz"
    refresh_token := Option.none
    expires_at := Option.none
    token_type := Option.none
    extra := Option.none }

/-- Witness for C8 at a concrete token with no token type. -/
theorem C8_witness :
    tokenPlain.token_type = Option.none ∧
    (auth_header tokenPlain).headers =
      [("Authorization", "Bearer tok-xyz")] :=
  ⟨rfl, (C8_auth_header_shape tokenPlain).2 rfl⟩

/-- C2: EnsureToken returns the auth artifacts (and no card) when a
token is cached; with no token it returns NeedsSignIn, either with a
sign-in card and a populated top-level state id (auto sign-in allowed)
or with no card, no state and no auth artifacts (auto sign-in not
allowed).  `gen` models the freshly generated uuid. -/
theorem C2_ensure_token_modes (b : OAuthBackend) (gen : String)
    (i : OAuthCardInput) (hm : i.mode = .EnsureToken) :
    (∀ t, b.get_token i.provider_id i.subject i.scopes = .ok (some t) →
      handle b gen i = .ok
        { status := .Ok
          card := Option.none
          auth_context := some (auth_context i t)
          auth_header := some (auth_header t)
          state_id := Option.none
          error := Option.none }) ∧
    (b.get_token i.provider_id i.subject i.scopes = .ok Option.none →
      i.allow_auto_sign_in = true →
      handle b gen i = .ok
        { status := .NeedsSignIn
          card := some (sign_in_card i (i.state_id.getD gen)
            (unwrapOrDefaultStr (b.get_consent_url i.provider_id i.subject
              i.scopes (redirect_path i) (i.extra_json.map JsonVal.render))))
          auth_context := Option.none
          auth_header := Option.none
          state_id := some (i.state_id.getD gen)
          error := Option.none }) ∧
    (b.get_token i.provider_id i.subject i.scopes = .ok Option.none →
      i.allow_auto_sign_in = false →
      handle b gen i = .ok
        { status := .NeedsSignIn
          card := Option.none
          auth_context := Option.none
          auth_header := Option.none
          state_id := Option.none
          error := Option.none }) := by
  refine ⟨fun t ht => ?_, fun ht ha => ?_, fun ht ha => ?_⟩ <;>
    simp only [handle, hm]
  · exact ensure_token_token b gen i t ht
  · exact ensure_token_auto b gen i ht ha
  · exact ensure_token_no_auto b gen i ht ha

/-- Token as in the tests of the repository. -/
def tokenFull : TokenSet :=
  { access_token := "token123"
    refresh_token := Option.none
    expires_at := some 123
    token_type := some "Bearer"
    extra := some (.obj [("email", .str "user@example.com")]) }

/-- Backend holding `tokenFull`. -/
def mbTok : OAuthBackend := mockBroker (some tokenFull) "https://consent/start"

/-- Backend holding no token. -/
def mbNone : OAuthBackend := mockBroker Option.none "https://consent/start"

/-- Concrete EnsureToken request with auto sign-in allowed. -/
def inputEnsure : OAuthCardInput :=
  { mode := .EnsureToken
    provider_id := "msgraph"
    subject := "user-1"
    tenant := Option.none
    team := Option.none
    scopes := []
    state_id := Option.none
    auth_code := Option.none
    allow_auto_sign_in := true
    redirect_path := Option.none
    extra_json := Option.none }

/-- Concrete EnsureToken request with auto sign-in not allowed. -/
def inputEnsureNoAuto : OAuthCardInput :=
  { inputEnsure with allow_auto_sign_in := false }

/-- Witness for C2: all three EnsureToken branches at concrete inputs. -/
theorem C2_witness :
    inputEnsure.mode = .EnsureToken ∧
    mbTok.get_token inputEnsure.provider_id inputEnsure.subject
      inputEnsure.scopes = .ok (some tokenFull) ∧
    mbNone.get_token inputEnsure.provider_id inputEnsure.subject
      inputEnsure.scopes = .ok Option.none ∧
    inputEnsure.allow_auto_sign_in = true ∧
    inputEnsureNoAuto.allow_auto_sign_in = false ∧
    handle mbTok "uuid-1" inputEnsure = .ok
      { status := .Ok
        card := Option.none
        auth_context := some (auth_context inputEnsure tokenFull)
        auth_header := some (auth_header tokenFull)
        state_id := Option.none
        error := Option.none } ∧
    handle mbNone "uuid-1" inputEnsure = .ok
      { status := .NeedsSignIn
        card := some (sign_in_card inputEnsure "uuid-1"
          "https://consent/start")
        auth_context := Option.none
        auth_header := Option.none
        state_id := some "uuid-1"
        error := Option.none } ∧
    handle mbNone "uuid-1" inputEnsureNoAuto = .ok
      { status := .NeedsSignIn
        card := Option.none
        auth_context := Option.none
        auth_header := Option.none
        state_id := Option.none
        error := Option.none } :=
  ⟨rfl, rfl, rfl, rfl, rfl,
    (C2_ensure_token_modes mbTok "uuid-1" inputEnsure rfl).1 tokenFull rfl,
    (C2_ensure_token_modes mbNone "uuid-1" inputEnsure rfl).2.1 rfl rfl,
    (C2_ensure_token_modes mbNone "uuid-1" inputEnsureNoAuto rfl).2.2
      rfl rfl⟩

/-- C3: StartSignIn always returns status Ok, echoes the resolved state
id (the one of the request if given, else the freshly generated `gen`) both
at top level and inside the Continue PostBack action data of the card,
passes the resolved redirect path (the one of the request if given, else
`/oauth/callback/<provider_id>`) to the broker, and returns no auth
artifacts. -/
theorem C3_start_sign_in_shape (b : OAuthBackend) (gen : String)
    (i : OAuthCardInput) (hm : i.mode = .StartSignIn) :
    (∃ ex, brokerCalls b i =
      [.getConsentUrl i.provider_id i.subject i.scopes
        (i.redirect_path.getD ("/oauth/callback/" ++ i.provider_id)) ex]) ∧
    (∃ o, handle b gen i = .ok o ∧
      o.status = .Ok ∧
      o.state_id = some (i.state_id.getD gen) ∧
      o.auth_context = Option.none ∧
      o.auth_header = Option.none ∧
      ∃ c, o.card = some c ∧
        ∃ d, c.actions.getLast? = some (.PostBack "Continue" d) ∧
          d.getField "state_id" = some (.str (i.state_id.getD gen))) := by
  constructor
  · exact ⟨i.extra_json.map JsonVal.render,
      by simp [brokerCalls, hm, redirect_path]⟩
  · refine ⟨_, by simp only [handle, hm]; exact start_sign_in_eq b gen i,
      rfl, rfl, rfl, rfl, _, rfl, ?_⟩
    refine ⟨(.obj
      [("mode", .str OAuthCardMode.CompleteSignIn.toJsonStr),
       ("provider_id", .str i.provider_id),
       ("subject", .str i.subject),
       ("state_id", jsonOfOptStr (some (i.state_id.getD gen))),
       ("scopes", .arr (i.scopes.map .str))]), ?_, rfl⟩
    rw [sign_in_card_actions, List.getLast?_append_cons]
    rfl

/-- Concrete StartSignIn request with no state id and no redirect
path. -/
def inputStart : OAuthCardInput :=
  { mode := .StartSignIn
    provider_id := "msgraph"
    subject := "user-1"
    tenant := Option.none
    team := Option.none
    scopes := ["openid"]
    state_id := Option.none
    auth_code := Option.none
    allow_auto_sign_in := false
    redirect_path := Option.none
    extra_json := Option.none }

/-- Witness for C3 at a concrete request: the default redirect path is
used and the generated state id is echoed. -/
theorem C3_witness :
    inputStart.mode = .StartSignIn ∧
    ((∃ ex, brokerCalls mbNone inputStart =
      [.getConsentUrl inputStart.provider_id inputStart.subject
        inputStart.scopes
        (inputStart.redirect_path.getD
          ("/oauth/callback/" ++ inputStart.provider_id)) ex]) ∧
    (∃ o, handle mbNone "uuid-1" inputStart = .ok o ∧
      o.status = .Ok ∧
      o.state_id = some (inputStart.state_id.getD "uuid-1") ∧
      o.auth_context = Option.none ∧
      o.auth_header = Option.none ∧
      ∃ c, o.card = some c ∧
        ∃ d, c.actions.getLast? = some (.PostBack "Continue" d) ∧
          d.getField "state_id" =
            some (.str (inputStart.state_id.getD "uuid-1")))) :=
  ⟨rfl, C3_start_sign_in_shape mbNone "uuid-1" inputStart rfl⟩

/-- C4: StatusCard with no cached token returns NeedsSignIn with a
populated sign-in prompt card, no auth artifacts and no top-level state
id; the generated state id (`gen`) is embedded in the Continue
PostBack action data. -/
theorem C4_status_card_prompt (b : OAuthBackend) (gen : String)
    (i : OAuthCardInput) (hm : i.mode = .StatusCard)
    (ht : b.get_token i.provider_id i.subject i.scopes = .ok Option.none) :
    handle b gen i = .ok
      { status := .NeedsSignIn
        card := some (sign_in_card i gen "")
        auth_context := Option.none
        auth_header := Option.none
        state_id := Option.none
        error := Option.none } ∧
    ∃ d, (sign_in_card i gen "").actions.getLast? =
        some (.PostBack "Continue" d) ∧
      d.getField "state_id" = some (.str gen) := by
  constructor
  · simp only [handle, hm]
    exact status_card_no_token b gen i ht
  · refine ⟨(.obj
      [("mode", .str OAuthCardMode.CompleteSignIn.toJsonStr),
       ("provider_id", .str i.provider_id),
       ("subject", .str i.subject),
       ("state_id", jsonOfOptStr (some gen)),
       ("scopes", .arr (i.scopes.map .str))]), ?_, rfl⟩
    rw [sign_in_card_actions, List.getLast?_append_cons]
    rfl

/-- Concrete StatusCard request. -/
def inputStatus : OAuthCardInput :=
  { inputStart with mode := .StatusCard }

/-- Witness for C4 with the no-token backend at a concrete request. -/
theorem C4_witness :
    inputStatus.mode = .StatusCard ∧
    mbNone.get_token inputStatus.provider_id inputStatus.subject
      inputStatus.scopes = .ok Option.none ∧
    (handle mbNone "uuid-1" inputStatus = .ok
      { status := .NeedsSignIn
        card := some (sign_in_card inputStatus "uuid-1" "")
        auth_context := Option.none
        auth_header := Option.none
        state_id := Option.none
        error := Option.none } ∧
    ∃ d, (sign_in_card inputStatus "uuid-1" "").actions.getLast? =
        some (.PostBack "Continue" d) ∧
      d.getField "state_id" = some (.str "uuid-1")) :=
  ⟨rfl, rfl, C4_status_card_prompt mbNone "uuid-1" inputStatus rfl rfl⟩

/-- C6: broker failures of `get_token` (in the modes that invoke it)
and of `exchange_code` propagate unchanged out of `handle` and surface
at the boundary as a status Error response carrying the error message;
a `get_consent_url` failure is swallowed at both of its call sites
(StartSignIn and the auto-sign-in branch of EnsureToken): the flow
still succeeds with the consent URL treated as empty, the card has no
OpenUrl action and no start_url, and the Continue PostBack action is
still present. -/
theorem C6_broker_error_policy (b : OAuthBackend) (gen : String)
    (i : OAuthCardInput) (e : OAuthCardError) :
    ((i.mode = .StatusCard ∨ i.mode = .EnsureToken) →
      b.get_token i.provider_id i.subject i.scopes = .error e →
      handle b gen i = .error e ∧
      boundary_response (handle b gen i) =
        { status := .Error
          card := Option.none
          auth_context := Option.none
          auth_header := Option.none
          state_id := Option.none
          error := some e.message }) ∧
    (∀ code, i.mode = .CompleteSignIn → i.auth_code = some code →
      b.exchange_code i.provider_id i.subject code (redirect_path i) =
        .error e →
      handle b gen i = .error e ∧
      boundary_response (handle b gen i) =
        { status := .Error
          card := Option.none
          auth_context := Option.none
          auth_header := Option.none
          state_id := Option.none
          error := some e.message }) ∧
    (i.mode = .StartSignIn →
      b.get_consent_url i.provider_id i.subject i.scopes (redirect_path i)
        (i.extra_json.map JsonVal.render) = .error e →
      handle b gen i = .ok
        { status := .Ok
          card := some (sign_in_card i (i.state_id.getD gen) "")
          auth_context := Option.none
          auth_header := Option.none
          state_id := some (i.state_id.getD gen)
          error := Option.none } ∧
      (sign_in_card i (i.state_id.getD gen) "").actions =
        [action "Continue" .CompleteSignIn i
          (some (i.state_id.getD gen))] ∧
      ∃ oc, (sign_in_card i (i.state_id.getD gen) "").oauth = some oc ∧
        oc.start_url = Option.none) ∧
    (i.mode = .EnsureToken →
      b.get_token i.provider_id i.subject i.scopes = .ok Option.none →
      i.allow_auto_sign_in = true →
      b.get_consent_url i.provider_id i.subject i.scopes (redirect_path i)
        (i.extra_json.map JsonVal.render) = .error e →
      handle b gen i = .ok
        { status := .NeedsSignIn
          card := some (sign_in_card i (i.state_id.getD gen) "")
          auth_context := Option.none
          auth_header := Option.none
          state_id := some (i.state_id.getD gen)
          error := Option.none } ∧
      (sign_in_card i (i.state_id.getD gen) "").actions =
        [action "Continue" .CompleteSignIn i
          (some (i.state_id.getD gen))] ∧
      ∃ oc, (sign_in_card i (i.state_id.getD gen) "").oauth = some oc ∧
        oc.start_url = Option.none) := by
  refine ⟨fun hmode ht => ?_, fun code hm hc hx => ?_, fun hm hc => ?_,
    fun hm ht ha hc => ?_⟩
  · have he : handle b gen i = .error e := by
      rcases hmode with hm | hm <;> simp only [handle, hm]
      · exact status_card_err b gen i e ht
      · exact ensure_token_err b gen i e ht
    exact ⟨he, by rw [he]; rfl⟩
  · have he : handle b gen i = .error e := by
      simp only [handle, hm]
      exact complete_sign_in_err b i code e hc hx
    exact ⟨he, by rw [he]; rfl⟩
  · have hu : unwrapOrDefaultStr (b.get_consent_url i.provider_id
        i.subject i.scopes (redirect_path i)
        (i.extra_json.map JsonVal.render)) = "" := by
      rw [hc]
      rfl
    have he := start_sign_in_eq b gen i
    rw [hu] at he
    refine ⟨by simp only [handle, hm]; exact he, ?_, ?_⟩
    · rw [sign_in_card_actions]
      simp
    · exact ⟨_, sign_in_card_oauth i (i.state_id.getD gen) "", by simp⟩
  · have hu : unwrapOrDefaultStr (b.get_consent_url i.provider_id
        i.subject i.scopes (redirect_path i)
        (i.extra_json.map JsonVal.render)) = "" := by
      rw [hc]
      rfl
    have he := ensure_token_auto b gen i ht ha
    rw [hu] at he
    refine ⟨by simp only [handle, hm]; exact he, ?_, ?_⟩
    · rw [sign_in_card_actions]
      simp
    · exact ⟨_, sign_in_card_oauth i (i.state_id.getD gen) "", by simp⟩

/-- Backend whose every operation fails. -/
def errBroker : OAuthBackend where
  get_token := fun _ _ _ => .error (.Unsupported "boom-token")
  get_consent_url := fun _ _ _ _ _ => .error (.Unsupported "boom-consent")
  exchange_code := fun _ _ _ _ => .error (.Unsupported "boom-exchange")

/-- Concrete CompleteSignIn request with an auth code. -/
def inputComplete : OAuthCardInput :=
  { inputStart with mode := .CompleteSignIn, auth_code := some "code-123" }

/-- Backend with no cached token whose consent operation fails. -/
def errConsentBroker : OAuthBackend where
  get_token := fun _ _ _ => .ok Option.none
  get_consent_url := fun _ _ _ _ _ => .error (.Unsupported "boom-consent")
  exchange_code := fun _ _ _ _ => .error (.Unsupported "boom-exchange")

/-- Witness for C6: the four failure policies at concrete requests
against failing backends. -/
theorem C6_witness :
    ((inputStatus.mode = .StatusCard ∨ inputStatus.mode = .EnsureToken) ∧
     errBroker.get_token inputStatus.provider_id inputStatus.subject
       inputStatus.scopes = .error (.Unsupported "boom-token") ∧
     handle errBroker "uuid-1" inputStatus =
       .error (.Unsupported "boom-token") ∧
     boundary_response (handle errBroker "uuid-1" inputStatus) =
       { status := .Error
         card := Option.none
         auth_context := Option.none
         auth_header := Option.none
         state_id := Option.none
         error := some "unsupported: boom-token" }) ∧
    (inputComplete.mode = .CompleteSignIn ∧
     inputComplete.auth_code = some "code-123" ∧
     handle errBroker "uuid-1" inputComplete =
       .error (.Unsupported "boom-exchange")) ∧
    (inputStart.mode = .StartSignIn ∧
     handle errBroker "uuid-1" inputStart = .ok
       { status := .Ok
         card := some (sign_in_card inputStart "uuid-1" "")
         auth_context := Option.none
         auth_header := Option.none
         state_id := some "uuid-1"
         error := Option.none } ∧
     (sign_in_card inputStart "uuid-1" "").actions =
       [action "Continue" .CompleteSignIn inputStart (some "uuid-1")] ∧
     ∃ oc, (sign_in_card inputStart "uuid-1" "").oauth = some oc ∧
       oc.start_url = Option.none) ∧
    (inputEnsure.mode = .EnsureToken ∧
     errConsentBroker.get_token inputEnsure.provider_id inputEnsure.subject
       inputEnsure.scopes = .ok Option.none ∧
     inputEnsure.allow_auto_sign_in = true ∧
     handle errConsentBroker "uuid-1" inputEnsure = .ok
       { status := .NeedsSignIn
         card := some (sign_in_card inputEnsure "uuid-1" "")
         auth_context := Option.none
         auth_header := Option.none
         state_id := some "uuid-1"
         error := Option.none } ∧
     (sign_in_card inputEnsure "uuid-1" "").actions =
       [action "Continue" .CompleteSignIn inputEnsure (some "uuid-1")] ∧
     ∃ oc, (sign_in_card inputEnsure "uuid-1" "").oauth = some oc ∧
       oc.start_url = Option.none) := by
  have p1 := (C6_broker_error_policy errBroker "uuid-1" inputStatus
    (.Unsupported "boom-token")).1 (Or.inl rfl) rfl
  have p2 := (C6_broker_error_policy errBroker "uuid-1" inputComplete
    (.Unsupported "boom-exchange")).2.1 "code-123" rfl rfl rfl
  have p3 := (C6_broker_error_policy errBroker "uuid-1" inputStart
    (.Unsupported "boom-consent")).2.2.1 rfl rfl
  have p4 := (C6_broker_error_policy errConsentBroker "uuid-1" inputEnsure
    (.Unsupported "boom-consent")).2.2.2 rfl rfl rfl rfl
  exact ⟨⟨Or.inl rfl, rfl, p1.1, p1.2⟩, ⟨rfl, rfl, p2.1⟩,
    ⟨rfl, p3.1, p3.2.1, p3.2.2⟩,
    ⟨rfl, rfl, rfl, p4.1, p4.2.1, p4.2.2⟩⟩

/-- Whenever the subject or provider_id field is absent, deserialization
of the input fails. -/
theorem deserialize_input_missing (v : JsonVal)
    (h : v.getField "subject" = Option.none ∨
      v.getField "provider_id" = Option.none) :
    ∃ m, deserialize_input v = .error m := by
  cases v with
  | null => exact ⟨_, rfl⟩
  | bool b => exact ⟨_, rfl⟩
  | num n => exact ⟨_, rfl⟩
  | str s => exact ⟨_, rfl⟩
  | arr xs => exact ⟨_, rfl⟩
  | obj fs =>
    rcases h with h | h
    · have hs : reqStrField (.obj fs) "subject" =
          .error ("missing field " ++ "subject") := by
        simp [reqStrField, h]
      cases hm : modeField (.obj fs) "mode" with
      | error m =>
          exact ⟨m, by simp [deserialize_input, hm, Bind.bind, Except.bind]⟩
      | ok md =>
        cases hp : reqStrField (.obj fs) "provider_id" with
        | error m =>
            exact ⟨m, by
              simp [deserialize_input, hm, hp, Bind.bind, Except.bind]⟩
        | ok pid =>
            refine ⟨"missing field subject", ?_⟩
            simp [deserialize_input, hm, hp, hs, Bind.bind, Except.bind]
    · have hp : reqStrField (.obj fs) "provider_id" =
          .error ("missing field " ++ "provider_id") := by
        simp [reqStrField, h]
      cases hm : modeField (.obj fs) "mode" with
      | error m =>
          exact ⟨m, by simp [deserialize_input, hm, Bind.bind, Except.bind]⟩
      | ok md =>
          refine ⟨"missing field provider_id", ?_⟩
          simp [deserialize_input, hm, hp, Bind.bind, Except.bind]

/-- C7 (amended): a raw input in which the subject or provider_id field
is absent fails to decode: `parse_input` yields a `Parse` error and the
boundary returns a status Error response.  (Empty-string values are
accepted: see the counterexample.) -/
theorem C7_missing_required_field (b : OAuthBackend) (gen : String)
    (v : JsonVal)
    (h : v.getField "subject" = Option.none ∨
      v.getField "provider_id" = Option.none) :
    (∃ m, parse_input v = .error (.Parse m)) ∧
    (handle_message b gen v).status = .Error := by
  obtain ⟨m, hd⟩ := deserialize_input_missing v h
  have hp : parse_input v = .error (.Parse ("input json: " ++ m)) := by
    simp [parse_input, hd]
  refine ⟨⟨_, hp⟩, ?_⟩
  simp [handle_message, hp, Except.bind, boundary_response]

/-- Raw input whose subject field is the empty string. -/
def rawEmptySubject : JsonVal := .obj
  [("mode", .str "status-card"),
   ("provider_id", .str "demo"),
   ("subject", .str "")]

/-- C7 counterexample: an input with an empty-string subject decodes
successfully into a request and is processed normally (NeedsSignIn, no
error) instead of being rejected with an Invalid error. -/
theorem C7_counterexample :
    (∃ i, parse_input rawEmptySubject = .ok i ∧ i.subject = "") ∧
    (handle_message noopBroker "uuid-1" rawEmptySubject).status =
      .NeedsSignIn ∧
    (handle_message noopBroker "uuid-1" rawEmptySubject).error =
      Option.none := by
  exact ⟨⟨_, rfl, rfl⟩, rfl, rfl⟩

/-- Raw input with no subject field at all. -/
def rawNoSubject : JsonVal := .obj
  [("mode", .str "status-card"), ("provider_id", .str "demo")]

/-- Witness for the amended C7 at a concrete input missing its
subject. -/
theorem C7_witness :
    (rawNoSubject.getField "subject" = Option.none ∨
      rawNoSubject.getField "provider_id" = Option.none) ∧
    ((∃ m, parse_input rawNoSubject = .error (.Parse m)) ∧
     (handle_message noopBroker "uuid-1" rawNoSubject).status = .Error) :=
  ⟨Or.inl rfl,
    C7_missing_required_field noopBroker "uuid-1" rawNoSubject (Or.inl rfl)⟩

/-- The connected card depends only on the provider_id, subject, team
and scopes of the request (and on the token and headline). -/
theorem connected_card_congr (iA iB : OAuthCardInput) (t : TokenSet)
    (hl : String)
    (h1 : iA.provider_id = iB.provider_id) (h2 : iA.subject = iB.subject)
    (h3 : iA.team = iB.team) (h4 : iA.scopes = iB.scopes) :
    connected_card iA t hl = connected_card iB t hl := by
  simp [connected_card, base_card, action, h1, h2, h3, h4]

/-- The sign-in card depends only on the provider_id, subject, team and
scopes of the request (and on the state id and consent URL). -/
theorem sign_in_card_congr (iA iB : OAuthCardInput) (sid url : String)
    (h1 : iA.provider_id = iB.provider_id) (h2 : iA.subject = iB.subject)
    (h3 : iA.team = iB.team) (h4 : iA.scopes = iB.scopes) :
    sign_in_card iA sid url = sign_in_card iB sid url := by
  simp [sign_in_card, base_card, action, h1, h2, h3, h4]

/-- C9: with the same identity fields, StatusCard (token cached) and
CompleteSignIn (same token exchanged) produce the identical connected
card; with the same resolved state id and consent URL, StartSignIn and
the auto-sign-in branch of EnsureToken produce the identical sign-in card. -/
theorem C9_shared_card_logic
    (iA iB iC iD : OAuthCardInput) (gen1 gen2 gen3 gen4 : String)
    (b1 b2 b3 b4 : OAuthBackend) (t : TokenSet) (code sid u : String)
    (hpAB : iA.provider_id = iB.provider_id)
    (hsAB : iA.subject = iB.subject)
    (htAB : iA.team = iB.team) (hscAB : iA.scopes = iB.scopes)
    (hA : iA.mode = .StatusCard) (hB : iB.mode = .CompleteSignIn)
    (hBc : iB.auth_code = some code)
    (h1 : b1.get_token iA.provider_id iA.subject iA.scopes = .ok (some t))
    (h2 : b2.exchange_code iB.provider_id iB.subject code
      (redirect_path iB) = .ok t)
    (hpCD : iC.provider_id = iD.provider_id)
    (hsCD : iC.subject = iD.subject)
    (htCD : iC.team = iD.team) (hscCD : iC.scopes = iD.scopes)
    (hC : iC.mode = .StartSignIn) (hD : iD.mode = .EnsureToken)
    (hCs : iC.state_id = some sid) (hDs : iD.state_id = some sid)
    (hDa : iD.allow_auto_sign_in = true)
    (h3 : b3.get_consent_url iC.provider_id iC.subject iC.scopes
      (redirect_path iC) (iC.extra_json.map JsonVal.render) = .ok u)
    (h4t : b4.get_token iD.provider_id iD.subject iD.scopes =
      .ok Option.none)
    (h4 : b4.get_consent_url iD.provider_id iD.subject iD.scopes
      (redirect_path iD) (iD.extra_json.map JsonVal.render) = .ok u) :
    (∃ o1 o2, handle b1 gen1 iA = .ok o1 ∧ handle b2 gen2 iB = .ok o2 ∧
      o1.card = o2.card ∧
      o1.card = some (connected_card iA t "Connected")) ∧
    (∃ o3 o4, handle b3 gen3 iC = .ok o3 ∧ handle b4 gen4 iD = .ok o4 ∧
      o3.card = o4.card ∧ o3.card = some (sign_in_card iC sid u)) := by
  constructor
  · have eA : handle b1 gen1 iA = .ok
        { status := .Ok
          card := some (connected_card iA t "Connected")
          auth_context := some (auth_context iA t)
          auth_header := some (auth_header t)
          state_id := Option.none
          error := Option.none } := by
      simp only [handle, hA]
      exact status_card_token b1 gen1 iA t h1
    have eB : handle b2 gen2 iB = .ok
        { status := .Ok
          card := some (connected_card iB t "Connected")
          auth_context := some (auth_context iB t)
          auth_header := some (auth_header t)
          state_id := Option.none
          error := Option.none } := by
      simp only [handle, hB]
      exact complete_sign_in_token b2 iB code t hBc h2
    exact ⟨_, _, eA, eB,
      congrArg some
        (connected_card_congr iA iB t "Connected" hpAB hsAB htAB hscAB),
      rfl⟩
  · have e3 := start_sign_in_eq b3 gen3 iC
    rw [hCs, h3] at e3
    have e4 := ensure_token_auto b4 gen4 iD h4t hDa
    rw [hDs, h4] at e4
    have e3h : handle b3 gen3 iC = start_sign_in b3 gen3 iC := by
      simp only [handle, hC]
    have e4h : handle b4 gen4 iD = ensure_token b4 gen4 iD := by
      simp only [handle, hD]
    refine ⟨_, _, e3h.trans e3, e4h.trans e4, ?_, rfl⟩
    exact congrArg some
      (sign_in_card_congr iC iD ((some sid).getD gen3) u hpCD hsCD htCD
        hscCD)

/-- Concrete StartSignIn request with a fixed state id. -/
def inputStartSid : OAuthCardInput :=
  { inputStart with state_id := some "state-9" }

/-- Concrete EnsureToken request with the same identity fields, the same
state id and auto sign-in allowed. -/
def inputEnsureSid : OAuthCardInput :=
  { inputStart with
      mode := .EnsureToken
      state_id := some "state-9"
      allow_auto_sign_in := true }

/-- Witness for C9: the four flows at concrete requests and mock
backends produce pairwise identical cards. -/
theorem C9_witness :
    ((∃ o1 o2, handle mbTok "uuid-1" inputStatus = .ok o1 ∧
      handle mbTok "uuid-2" inputComplete = .ok o2 ∧
      o1.card = o2.card ∧
      o1.card = some (connected_card inputStatus tokenFull "Connected")) ∧
    (∃ o3 o4, handle mbNone "uuid-3" inputStartSid = .ok o3 ∧
      handle mbNone "uuid-4" inputEnsureSid = .ok o4 ∧
      o3.card = o4.card ∧
      o3.card = some (sign_in_card inputStartSid "state-9"
        "https://consent/start"))) :=
  C9_shared_card_logic inputStatus inputComplete inputStartSid
    inputEnsureSid "uuid-1" "uuid-2" "uuid-3" "uuid-4"
    mbTok mbTok mbNone mbNone tokenFull "code-123" "state-9"
    "https://consent/start"
    rfl rfl rfl rfl rfl rfl rfl rfl rfl
    rfl rfl rfl rfl rfl rfl rfl rfl rfl rfl rfl rfl

/-- Frame facts of a sign-in card: Oauth kind, markdown allowed, no
footer, images or adaptive payload, oauth metadata present. -/
theorem sign_in_card_frame (i : OAuthCardInput) (sid url : String) :
    (sign_in_card i sid url).kind = .Oauth ∧
    (sign_in_card i sid url).allow_markdown = true ∧
    (sign_in_card i sid url).footer = Option.none ∧
    (sign_in_card i sid url).images = [] ∧
    (sign_in_card i sid url).adaptive = Option.none ∧
    (sign_in_card i sid url).oauth.isSome = true := by
  by_cases h : url = "" <;>
    simp [sign_in_card, base_card, MessageCard.defaultCard, h]

/-- Frame facts of a connected card. -/
theorem connected_card_frame (i : OAuthCardInput) (t : TokenSet)
    (hl : String) :
    (connected_card i t hl).kind = .Oauth ∧
    (connected_card i t hl).allow_markdown = true ∧
    (connected_card i t hl).footer = Option.none ∧
    (connected_card i t hl).images = [] ∧
    (connected_card i t hl).adaptive = Option.none ∧
    (connected_card i t hl).oauth.isSome = true := by
  simp [connected_card, base_card, MessageCard.defaultCard]

/-- C10: every card present in a response of `handle` has Oauth kind,
markdown allowed, no footer, no images, no adaptive payload, and a
populated oauth metadata block. -/
theorem C10_card_frame (b : OAuthBackend) (gen : String)
    (i : OAuthCardInput) (o : OAuthCardOutput) (c : MessageCard)
    (h : handle b gen i = .ok o) (hc : o.card = some c) :
    c.kind = .Oauth ∧ c.allow_markdown = true ∧
    c.footer = Option.none ∧ c.images = [] ∧
    c.adaptive = Option.none ∧ c.oauth.isSome = true := by
  cases hm : i.mode <;> simp only [handle, hm] at h
  case StatusCard =>
    cases ht : b.get_token i.provider_id i.subject i.scopes with
    | error e => rw [status_card_err b gen i e ht] at h; cases h
    | ok tok =>
      cases tok with
      | some t =>
          rw [status_card_token b gen i t ht] at h
          injection h with h2; subst h2
          simp only [] at hc
          injection hc with hc2; subst hc2
          exact connected_card_frame i t "Connected"
      | none =>
          rw [status_card_no_token b gen i ht] at h
          injection h with h2; subst h2
          simp only [] at hc
          injection hc with hc2; subst hc2
          exact sign_in_card_frame i gen ""
  case StartSignIn =>
    rw [start_sign_in_eq] at h
    injection h with h2; subst h2
    simp only [] at hc
    injection hc with hc2; subst hc2
    exact sign_in_card_frame i (i.state_id.getD gen) _
  case CompleteSignIn =>
    cases hcode : i.auth_code with
    | none => rw [complete_sign_in_no_code b i hcode] at h; cases h
    | some code =>
      cases hx : b.exchange_code i.provider_id i.subject code
          (redirect_path i) with
      | error e =>
          rw [complete_sign_in_err b i code e hcode hx] at h; cases h
      | ok t =>
          rw [complete_sign_in_token b i code t hcode hx] at h
          injection h with h2; subst h2
          simp only [] at hc
          injection hc with hc2; subst hc2
          exact connected_card_frame i t "Connected"
  case EnsureToken =>
    cases ht : b.get_token i.provider_id i.subject i.scopes with
    | error e => rw [ensure_token_err b gen i e ht] at h; cases h
    | ok tok =>
      cases tok with
      | some t =>
          rw [ensure_token_token b gen i t ht] at h
          injection h with h2; subst h2
          simp only [] at hc
          cases hc
      | none =>
        cases ha : i.allow_auto_sign_in with
        | true =>
            rw [ensure_token_auto b gen i ht ha] at h
            injection h with h2; subst h2
            simp only [] at hc
            injection hc with hc2; subst hc2
            exact sign_in_card_frame i (i.state_id.getD gen) _
        | false =>
            rw [ensure_token_no_auto b gen i ht ha] at h
            injection h with h2; subst h2
            simp only [] at hc
            cases hc
  case Disconnect =>
    simp only [disconnect_card] at h
    injection h with h2; subst h2
    simp only [] at hc
    injection hc with hc2; subst hc2
    simp [base_card, MessageCard.defaultCard]

/-- The output of StatusCard with a cached token at the concrete
request. -/
def outStatusTok : OAuthCardOutput :=
  { status := .Ok
    card := some (connected_card inputStatus tokenFull "Connected")
    auth_context := some (auth_context inputStatus tokenFull)
    auth_header := some (auth_header tokenFull)
    state_id := Option.none
    error := Option.none }

/-- Witness for C10 at a concrete connected response. -/
theorem C10_witness :
    handle mbTok "uuid-1" inputStatus = .ok outStatusTok ∧
    outStatusTok.card =
      some (connected_card inputStatus tokenFull "Connected") ∧
    ((connected_card inputStatus tokenFull "Connected").kind = .Oauth ∧
     (connected_card inputStatus tokenFull "Connected").allow_markdown =
       true ∧
     (connected_card inputStatus tokenFull "Connected").footer =
       Option.none ∧
     (connected_card inputStatus tokenFull "Connected").images = [] ∧
     (connected_card inputStatus tokenFull "Connected").adaptive =
       Option.none ∧
     (connected_card inputStatus tokenFull "Connected").oauth.isSome =
       true) :=
  ⟨rfl, rfl,
    C10_card_frame mbTok "uuid-1" inputStatus outStatusTok
      (connected_card inputStatus tokenFull "Connected") rfl rfl⟩

end OAuthCard
